import Mathlib

/-!
Shallow embedding of the content-generation pipeline of the
`Ai_content_creator` repository (src/app/agents/workflows.py and
src/app/agents/content_agent.py), together with theorems settling the
specification claims about it.

External text-generation calls are modelled by an oracle assigning each
stage's collaborator call an outcome `Except String String` (an error
message, or the returned text).  Python `list(set(xs))` is modelled by an
arbitrary function producing a duplicate-free list with the same members
as `xs` (the CPython set iteration order is hash-based and unspecified).
-/

namespace ContentPipeline

/-- ASCII model of the regex word class used by the pattern in
`_extract_hashtags`: letters, digits and underscore. -/
def wordChar (c : Char) : Bool := c.isAlphanum || c = '_'

/-- Scanner state machine for `re.findall` with the hashtag pattern: the
first argument holds the reversed characters of the word currently being
captured (`none` when not inside a match). -/
def findallAux : Option (List Char) → List Char → List String
  | none, [] => []
  | some acc, [] => if acc.isEmpty then [] else [String.mk acc.reverse]
  | none, c :: rest =>
    if c = '#' then findallAux (some []) rest else findallAux none rest
  | some acc, c :: rest =>
    if wordChar c then findallAux (some (c :: acc)) rest
    else
      let tail := if c = '#' then findallAux (some []) rest else findallAux none rest
      if acc.isEmpty then tail else String.mk acc.reverse :: tail

/-- Model of `re.findall` applied to the hashtag pattern in
`_extract_hashtags`: every maximal nonempty word-character run directly
following a hash sign, in order of occurrence. -/
def findall_hashtags (content : String) : List String :=
  findallAux none content.data

/-- Model of Python `str.lower` (ASCII fragment). -/
def pyLower (s : String) : String := String.mk (s.data.map Char.toLower)

/-- Boolean test that `pat` occurs as a contiguous sublist of `s`. -/
def listIsInfix (pat : List Char) : List Char → Bool
  | [] => pat.isEmpty
  | c :: rest => pat.isPrefixOf (c :: rest) || listIsInfix pat rest

/-- Model of Python substring membership `pat in s`. -/
def strContains (s pat : String) : Bool := listIsInfix pat.data s.data

/-- Model of Python `str.capitalize`: upper-case the first character,
lower-case the rest. -/
def pyCapitalize (s : String) : String :=
  match s.data with
  | [] => ""
  | c :: rest => String.mk (c.toUpper :: rest.map Char.toLower)

/-- Helper for `pySplitWhitespace`; the first argument is the reversed
current word. -/
def splitWhitespaceAux : List Char → List Char → List String
  | acc, [] => if acc.isEmpty then [] else [String.mk acc.reverse]
  | acc, c :: rest =>
    if c.isWhitespace then
      if acc.isEmpty then splitWhitespaceAux [] rest
      else String.mk acc.reverse :: splitWhitespaceAux [] rest
    else splitWhitespaceAux (c :: acc) rest

/-- Model of Python `str.split()` with no separator: split on whitespace
runs, dropping empty pieces. -/
def pySplitWhitespace (s : String) : List String :=
  splitWhitespaceAux [] s.data

/-- Result record of `WorkflowNodes._perform_quality_check`. -/
structure QualityResult where
  is_acceptable : Bool
  score : ℚ
  feedback : String
  deriving Repr, DecidableEq

/-- The four boolean checks of `_perform_quality_check`, in source order:
company reference, engagement element, appropriate length, hashtags. -/
def qualityChecks (content : String) : List Bool :=
  let lower := pyLower content
  [ ["we", "our", "company", "team"].any (fun k => strContains lower k),
    ["?", "comment", "share", "thoughts"].any (fun k => strContains lower k),
    decide (100 ≤ content.length ∧ content.length ≤ 2000),
    strContains content "#" ]

/-- Number of checks that passed (`sum(checks.values())`). -/
def passedChecks (content : String) : Nat :=
  ((qualityChecks content).filter id).length

/-- Model of `WorkflowNodes._perform_quality_check`.  The `crash`
argument models an exception raised inside the `try` body (caught by the
method's own handler); `none` is the normal path.  The float threshold
comparison `score >= 0.6` is modelled over ℚ; for the five possible
scores 0, 1/4, 1/2, 3/4, 1 the verdict coincides with the float one. -/
def perform_quality_check (crash : Option String) (content : String) : QualityResult :=
  match crash with
  | some e =>
    { is_acceptable := true
      score := 1/2
      feedback := "Quality check incomplete: " ++ e }
  | none =>
    let passed := passedChecks content
    let quality_score : ℚ := (passed : ℚ) / 4
    let pct := passed * 25
    { is_acceptable := decide (quality_score ≥ 6/10)
      score := quality_score
      feedback := "Quality score: " ++ toString pct ++ "%. Checks passed: " ++
        toString passed ++ "/4" }

/-- First-occurrence deduplication helper; `seen` collects already emitted
elements. -/
def firstDedupAux (seen : List String) : List String → List String
  | [] => []
  | a :: l => if a ∈ seen then firstDedupAux seen l else a :: firstDedupAux (a :: seen) l

/-- Deduplication keeping the first occurrence of each element: one
admissible iteration order of a Python set built from the list. -/
def firstDedup (l : List String) : List String := firstDedupAux [] l

/-- A function models Python `list(set(xs))` when its output is
duplicate-free and has exactly the members of `xs`.  The CPython set
iteration order is hash-seed dependent, so the order is unconstrained. -/
def IsSetList (d : List String → List String) : Prop :=
  ∀ xs : List String, (d xs).Nodup ∧ ∀ a, a ∈ d xs ↔ a ∈ xs

/-- Model of `_extract_hashtags` (identical in both agent files):
`re.findall` for the hashtag pattern, then `list(set(...))[:5]`, with the
set conversion abstracted by `d`. -/
def extract_hashtags (d : List String → List String) (content : String) : List String :=
  (d (findall_hashtags content)).take 5

/-- Statement of claim C4 exactly as written: for a text containing K
well-formed hashtag markers, extraction returns min(K, 5) tokens after
deduplication, in order of first occurrence in the text, capped at 5. -/
def ExtractClaimAsWritten : Prop :=
  ∀ d, IsSetList d → ∀ content : String,
    (extract_hashtags d content).length = min (findall_hashtags content).length 5 ∧
    extract_hashtags d content = (firstDedup (findall_hashtags content)).take 5

/-- A 150-character text containing a company token, a question mark and a
hash sign. -/
def fullChecksText : String := String.mk ('w' :: 'e' :: '?' :: '#' :: List.replicate 146 'a')

/-- Outcome of one external text-generation call: an error message, or
the returned text. -/
abbrev LLMResult := Except String String

/-- Oracle fixing the outcome of each stage's collaborator call within a
single pipeline run; `hashtag` is the extra call made by
`WorkflowNodes._generate_appropriate_hashtags`. -/
structure LLMOracle where
  research : LLMResult
  draft : LLMResult
  image : LLMResult
  review : LLMResult
  hashtag : LLMResult

/-- The LangGraph agent state of content_agent.py (`AgentState` plus the
extra keys the nodes write).  Keys absent from the initial dict are
modelled with `Option`; string keys initialised to the empty string are
plain strings. -/
structure AgentState where
  company_info : String
  topic : String
  style : String
  target_audience : Option String
  content_length : String
  research_notes : Option String
  draft_content : String
  final_content : String
  image_prompt : String
  hashtags : List String
  review_notes : Option String
  status : String
  error : Option String
  deriving Repr, DecidableEq

/-- Result model `ContentGenerationResult` of content_agent.py (the
timestamp metadata is outside the embedding). -/
structure ContentGenerationResult where
  final_content : String
  draft_content : String
  hashtags : List String
  image_prompt : Option String
  status : String
  deriving Repr, DecidableEq

/-- Model of `ContentGenerationAgent._generate_fallback_hashtags`: three
fixed base tags plus the capitalised first three topic keywords. -/
def generate_fallback_hashtags (topic : String) : List String :=
  let base_hashtags := ["LinkedIn", "Professional", "Business"]
  let topic_keywords := pySplitWhitespace (pyLower topic)
  let topic_hashtags := (topic_keywords.take 3).map pyCapitalize
  base_hashtags ++ topic_hashtags

/-- Node `ContentGenerationAgent.research_topic`: the whole body is inside
`try`, so the node never propagates a collaborator failure. -/
def agent_research_topic (o : LLMOracle) (s : AgentState) : AgentState :=
  match o.research with
  | .ok c => { s with research_notes := some c, status := "researched" }
  | .error e =>
    { s with research_notes := some ("Research unavailable: " ++ e)
             status := "research_failed", error := some e }

/-- Node `ContentGenerationAgent.generate_draft`; `d` abstracts the Python
set iteration order used by `_extract_hashtags`.  The failure branch does
not write the `hashtags` key. -/
def agent_generate_draft (d : List String → List String) (o : LLMOracle)
    (s : AgentState) : AgentState :=
  match o.draft with
  | .ok c =>
    { s with draft_content := c, hashtags := extract_hashtags d c
             status := "draft_generated" }
  | .error e =>
    { s with draft_content := "Content generation failed: " ++ e
             status := "draft_failed", error := some e }

/-- Node `ContentGenerationAgent.generate_image_prompt`. -/
def agent_generate_image_prompt (o : LLMOracle) (s : AgentState) : AgentState :=
  match o.image with
  | .ok c => { s with image_prompt := c, status := "image_prompt_generated" }
  | .error e =>
    { s with image_prompt := "Professional business image related to " ++ s.topic
             status := "image_prompt_fallback", error := some e }

/-- Node `ContentGenerationAgent.review_content`: on collaborator failure
it falls back to the draft content (the dict-get default is unreachable
because `draft_content` is always present). -/
def agent_review_content (o : LLMOracle) (s : AgentState) : AgentState :=
  match o.review with
  | .ok c =>
    { s with final_content := c, review_notes := some "Content reviewed and polished"
             status := "content_reviewed" }
  | .error e =>
    { s with final_content := s.draft_content
             review_notes := some ("Review failed: " ++ e)
             status := "review_failed", error := some e }

/-- Node `ContentGenerationAgent.finalize_content`: the only node without
its own try/except, so the `ValueError` it raises when no content exists
escapes the graph (modelled as `Except.error`). -/
def agent_finalize_content (s : AgentState) : Except String AgentState :=
  let final_content := if s.final_content ≠ "" then s.final_content else s.draft_content
  if final_content = "" then
    .error "No content generated in the workflow"
  else
    let hashtags := if s.hashtags = [] then generate_fallback_hashtags s.topic else s.hashtags
    .ok { s with final_content := final_content, hashtags := hashtags
                 status := "completed" }

/-- Names of the graph nodes in the fixed execution order wired by
`_build_graph`. -/
def agent_node_names : List String :=
  ["research_topic", "generate_draft", "generate_image_prompt",
   "review_content", "finalize_content"]

/-- State reaching the finalize node after the four guarded stages. -/
def agent_pre_finalize (d : List String → List String) (o : LLMOracle)
    (s0 : AgentState) : AgentState :=
  agent_review_content o
    (agent_generate_image_prompt o
      (agent_generate_draft d o
        (agent_research_topic o s0)))

/-- Trace of one execution of the compiled graph: the node names executed
in order, and the final state or the escaped exception message. -/
structure AgentRun where
  executed : List String
  result : Except String AgentState
  deriving Repr

/-- One execution of the compiled sequential graph: every node runs in the
fixed order; only finalize can raise. -/
def run_agent_graph (d : List String → List String) (o : LLMOracle)
    (s0 : AgentState) : AgentRun :=
  { executed := agent_node_names
    result := agent_finalize_content (agent_pre_finalize d o s0) }

/-- The initial state built by `ContentGenerationAgent.generate_content`. -/
def initial_agent_state (company_info topic style : String)
    (target_audience : Option String) (content_length : String) : AgentState :=
  { company_info := company_info, topic := topic, style := style
    target_audience := target_audience, content_length := content_length
    research_notes := none, draft_content := "", final_content := ""
    image_prompt := "", hashtags := [], review_notes := none
    status := "started", error := none }

/-- Model of `ContentGenerationAgent.generate_content`: run the graph and
assemble the result; any escaped exception is converted into a `failed`
result whose text embeds the error message. -/
def generate_content (d : List String → List String) (o : LLMOracle)
    (company_info topic style : String) (target_audience : Option String)
    (content_length : String) : ContentGenerationResult :=
  match (run_agent_graph d o
      (initial_agent_state company_info topic style target_audience content_length)).result with
  | .ok fs =>
    { final_content := fs.final_content, draft_content := fs.draft_content
      hashtags := fs.hashtags, image_prompt := some fs.image_prompt
      status := fs.status }
  | .error e =>
    { final_content := "Content generation failed: " ++ e
      draft_content := "", hashtags := [], image_prompt := none
      status := "failed" }

/-- The valid style vocabulary of the specification. -/
def validStyles : List String :=
  ["professional", "casual", "inspirational", "technical", "storytelling"]

/-- Concrete oracle where every collaborator call succeeds. -/
def okOracle : LLMOracle :=
  { research := .ok "Key facts about warehouse safety."
    draft := .ok "We improve warehouse safety. What do you think? #Safety"
    image := .ok "A modern warehouse with safety fencing"
    review := .ok "We improve warehouse safety every day. What do you think? #Safety"
    hashtag := .ok "#Safety #Business" }

/-- Concrete oracle where every collaborator call raises. -/
def errOracle : LLMOracle :=
  { research := .error "boom1", draft := .error "boom2", image := .error "boom3"
    review := .error "boom4", hashtag := .error "boom5" }

/-- Summary record built by `WorkflowNodes._create_workflow_summary`. -/
structure WorkflowSummary where
  total_steps : Nat
  steps_completed : List String
  errors_encountered : List String
  final_status : String
  has_image_prompt : Bool
  hashtags_count : Nat
  content_length : Nat
  deriving Repr, DecidableEq

/-- State dict threaded through the WorkflowNodes pipeline (workflows.py);
it carries every key the five nodes read or write. -/
structure WState where
  company_info : String
  topic : String
  style : String
  industry : String
  target_audience : String
  research_notes : String
  draft_content : String
  hashtags : List String
  image_prompt : String
  final_content : String
  review_notes : String
  status : String
  error : Option String
  workflow_step : String
  quality_check_passed : Bool
  workflow_summary : Option WorkflowSummary
  deriving Repr, DecidableEq

/-- Model of `WorkflowNodes._create_workflow_summary`: the step names that
occur as substrings of the last workflow step, the last error, and sizes
of the produced artifacts. -/
def create_workflow_summary (s : WState) : WorkflowSummary :=
  let steps_completed := (["research_topic", "generate_draft",
    "generate_image_prompt", "review_content"]).filter
      (fun step => strContains s.workflow_step step)
  let errors_encountered := match s.error with | some e => [e] | none => []
  { total_steps := steps_completed.length
    steps_completed := steps_completed
    errors_encountered := errors_encountered
    final_status := s.status
    has_image_prompt := s.image_prompt ≠ ""
    hashtags_count := s.hashtags.length
    content_length :=
      (if s.final_content ≠ "" then s.final_content else s.draft_content).length }

/-- Node `WorkflowNodes.research_topic`. -/
def wf_research_topic (o : LLMOracle) (s : WState) : WState :=
  match o.research with
  | .ok c =>
    { s with research_notes := c, status := "researched"
             workflow_step := "topic_research" }
  | .error e =>
    { s with research_notes := "Research limited due to: " ++ e
             status := "research_limited", error := some e
             workflow_step := "topic_research" }

/-- Node `WorkflowNodes.generate_draft`; the failure branch resets the
hashtags to the empty list. -/
def wf_generate_draft (d : List String → List String) (o : LLMOracle)
    (s : WState) : WState :=
  match o.draft with
  | .ok c =>
    { s with draft_content := c, hashtags := extract_hashtags d c
             status := "draft_generated", workflow_step := "content_drafting" }
  | .error e =>
    { s with draft_content := "Content generation challenged: " ++ e
             hashtags := [], status := "draft_failed", error := some e
             workflow_step := "content_drafting" }

/-- Node `WorkflowNodes.generate_image_prompt`. -/
def wf_generate_image_prompt (o : LLMOracle) (s : WState) : WState :=
  match o.image with
  | .ok c =>
    { s with image_prompt := c, status := "image_prompt_created"
             workflow_step := "image_prompt_generation" }
  | .error e =>
    { s with image_prompt := "Professional business image related to " ++ s.topic
             status := "image_prompt_fallback", error := some e
             workflow_step := "image_prompt_generation" }

/-- Node `WorkflowNodes.review_content`: on collaborator success the
rewrite passes through the quality gate and a rejected rewrite is replaced
by the draft plus a disclaimer; on collaborator failure the draft plus a
different disclaimer is used. -/
def wf_review_content (o : LLMOracle) (qcCrash : Option String) (s : WState) : WState :=
  match o.review with
  | .ok c =>
    let quality_check := perform_quality_check qcCrash c
    let final_content :=
      if quality_check.is_acceptable = false then
        s.draft_content ++ "\n\n[Content reviewed for accuracy]"
      else c
    { s with final_content := final_content
             review_notes := quality_check.feedback
             status := "content_reviewed", workflow_step := "content_review"
             quality_check_passed := quality_check.is_acceptable }
  | .error e =>
    { s with final_content := s.draft_content ++ "\n\n[Content review incomplete]"
             review_notes := "Review failed: " ++ e, status := "review_limited"
             error := some e, workflow_step := "content_review"
             quality_check_passed := false }

/-- Model of `WorkflowNodes._generate_appropriate_hashtags`: extract from
the collaborator answer, or fall back to five fixed tags. -/
def generate_appropriate_hashtags (d : List String → List String) (o : LLMOracle)
    (topic industry : String) : List String :=
  match o.hashtag with
  | .ok c => (extract_hashtags d c).take 5
  | .error _ => ["LinkedIn", "Professional", "Business", "Industry", "Career"]

/-- Node `WorkflowNodes.finalize_content`: its internal `ValueError` is
caught by its own handler, producing the failed terminal state. -/
def wf_finalize_content (d : List String → List String) (o : LLMOracle)
    (s : WState) : WState :=
  let final_content := if s.final_content ≠ "" then s.final_content else s.draft_content
  if final_content = "" then
    { s with final_content := "Content generation could not be completed successfully."
             hashtags := [], status := "failed"
             error := some "No content generated in workflow"
             workflow_step := "finalization" }
  else
    let hashtags :=
      if s.hashtags = [] then generate_appropriate_hashtags d o s.topic s.industry
      else s.hashtags
    { s with final_content := final_content, hashtags := hashtags
             status := "completed"
             workflow_summary := some (create_workflow_summary s)
             workflow_step := "finalization" }

/-- A fresh WorkflowNodes state: inputs set, content fields empty. -/
def initial_wstate (company_info topic style industry : String) : WState :=
  { company_info := company_info, topic := topic, style := style
    industry := industry, target_audience := "professionals"
    research_notes := "", draft_content := "", hashtags := []
    image_prompt := "", final_content := "", review_notes := ""
    status := "started", error := none, workflow_step := ""
    quality_check_passed := false, workflow_summary := none }

/-- The five WorkflowNodes stages composed in the fixed order given by
`get_workflow_edges`. -/
def run_workflow_nodes (d : List String → List String) (o : LLMOracle)
    (qcCrash : Option String) (s0 : WState) : WState :=
  wf_finalize_content d o
    (wf_review_content o qcCrash
      (wf_generate_image_prompt o
        (wf_generate_draft d o
          (wf_research_topic o s0))))

/-- Oracle whose review call returns a text that fails the quality gate. -/
def gateRejectOracle : LLMOracle := { okOracle with review := .ok "xyz" }

/-- Result-collection loop of
`ContentGenerationAgent.generate_multiple_variations`: the outcomes
delivered by `asyncio.gather(..., return_exceptions=True)` are filtered,
keeping successful results in order and dropping each raising run. -/
def generate_multiple_variations
    (runs : List (Except String ContentGenerationResult)) :
    List ContentGenerationResult :=
  match runs with
  | [] => []
  | .ok r :: rest => r :: generate_multiple_variations rest
  | .error _ :: rest => generate_multiple_variations rest

/-- Test whether a gathered outcome is a raised exception. -/
def isErrorOutcome : Except String ContentGenerationResult → Bool
  | .error _ => true
  | .ok _ => false

/-- A fixed successful run result used as witness data. -/
def demoResult : ContentGenerationResult :=
  { final_content := "We ship safe fencing. Thoughts? #Safety"
    draft_content := "Draft about fencing", hashtags := ["Safety"]
    image_prompt := some "warehouse image", status := "completed" }

/-- Shared LLM configuration state during the task-creation loop of
`generate_multiple_variations`. -/
structure VariationLoopState where
  temperature : ℚ
  created_tasks : Nat
  deriving Repr, DecidableEq

/-- One iteration of the loop: read the current temperature, set the
varied value min(0.7 + i*0.1, 0.9), create the coroutine (a Python
coroutine does not start executing until awaited, so it does not read the
temperature here), then restore the saved value. -/
def variation_loop_iter (s : VariationLoopState) (i : Nat) : VariationLoopState :=
  let original_temp := s.temperature
  let varied := { s with temperature := min ((7 : ℚ)/10 + (i : ℚ) * (1/10)) ((9 : ℚ)/10) }
  let created := { varied with created_tasks := varied.created_tasks + 1 }
  { created with temperature := original_temp }

/-- The whole `for i in range(variations)` loop. -/
def run_variation_loop (t0 : ℚ) (n : Nat) : VariationLoopState :=
  (List.range n).foldl variation_loop_iter { temperature := t0, created_tasks := 0 }

/-- Temperatures observed by the n coroutines: each starts only when
awaited by gather, after the loop has finished, and reads the shared
configuration at that point. -/
def variation_execution_temps (t0 : ℚ) (n : Nat) : List ℚ :=
  List.replicate n (run_variation_loop t0 n).temperature

lemma passedChecks_le_four (content : String) : passedChecks content ≤ 4 := by
  have h := List.length_filter_le (fun b => id b) (qualityChecks content)
  simpa [passedChecks, qualityChecks] using h

lemma acceptable_iff_three (content : String) :
    (perform_quality_check none content).is_acceptable = true ↔
      3 ≤ passedChecks content := by
  have h4 := passedChecks_le_four content
  simp only [perform_quality_check, decide_eq_true_eq, ge_iff_le]
  constructor
  · intro h
    by_contra hlt
    push_neg at hlt
    interval_cases hp : passedChecks content <;> norm_num [hp] at h
  · intro h
    interval_cases hp : passedChecks content <;> norm_num at h ⊢

lemma mem_firstDedupAux (a : String) (l seen : List String) :
    a ∈ firstDedupAux seen l ↔ a ∈ l ∧ a ∉ seen := by
  induction l generalizing seen with
  | nil => simp [firstDedupAux]
  | cons b l ih =>
    by_cases hb : b ∈ seen
    · simp only [firstDedupAux, if_pos hb, ih, List.mem_cons]
      constructor
      · exact fun h => ⟨Or.inr h.1, h.2⟩
      · rintro ⟨hab | hal, hns⟩
        · exact absurd (hab ▸ hb) hns
        · exact ⟨hal, hns⟩
    · simp only [firstDedupAux, if_neg hb, List.mem_cons, ih]
      by_cases hab : a = b
      · subst hab; simp [hb]
      · simp [hab]

lemma nodup_firstDedupAux (l seen : List String) : (firstDedupAux seen l).Nodup := by
  induction l generalizing seen with
  | nil => simp [firstDedupAux]
  | cons b l ih =>
    by_cases hb : b ∈ seen
    · simpa [firstDedupAux, hb] using ih seen
    · simp only [firstDedupAux, if_neg hb, List.nodup_cons]
      refine ⟨fun hmem => ?_, ih (b :: seen)⟩
      rw [mem_firstDedupAux] at hmem
      exact hmem.2 (by simp)

lemma firstDedup_isSetList : IsSetList firstDedup := by
  intro xs
  refine ⟨nodup_firstDedupAux xs [], fun a => ?_⟩
  simp [firstDedup, mem_firstDedupAux]

lemma setList_length_eq (d : List String → List String) (hd : IsSetList d)
    (xs : List String) : (d xs).length = (firstDedup xs).length := by
  have hf := firstDedup_isSetList xs
  have htf : (d xs).toFinset = (firstDedup xs).toFinset := by
    ext a
    simp only [List.mem_toFinset, (hd xs).2 a, hf.2 a]
  calc (d xs).length = (d xs).toFinset.card :=
        (List.toFinset_card_of_nodup (hd xs).1).symm
    _ = (firstDedup xs).toFinset.card := by rw [htf]
    _ = (firstDedup xs).length := List.toFinset_card_of_nodup hf.1

lemma fallback_hashtags_ne_nil (topic : String) :
    generate_fallback_hashtags topic ≠ [] := by
  simp [generate_fallback_hashtags]

lemma fallback_hashtags_length (topic : String) :
    3 ≤ (generate_fallback_hashtags topic).length := by
  simp [generate_fallback_hashtags]

lemma finalize_ok_spec (s s2 : AgentState)
    (h : agent_finalize_content s = .ok s2) :
    s2.final_content ≠ "" ∧ s2.status = "completed" ∧ s2.hashtags ≠ [] := by
  unfold agent_finalize_content at h
  by_cases hfc : (if s.final_content ≠ "" then s.final_content else s.draft_content) = ""
  · rw [if_pos hfc] at h
    exact absurd h (by simp)
  · rw [if_neg hfc] at h
    simp only [Except.ok.injEq] at h
    subst h
    refine ⟨hfc, rfl, ?_⟩
    by_cases hh : s.hashtags = []
    · simpa [hh] using fallback_hashtags_ne_nil s.topic
    · simp [hh]

lemma append_ne_empty_of_left (a b : String) (h : a ≠ "") : a ++ b ≠ "" := by
  intro hab
  apply h
  cases a with
  | mk la =>
    cases b with
    | mk lb =>
      have hd := congrArg String.data hab
      simp at hd
      simp [hd.1]

lemma gate_rejects_xyz : (perform_quality_check none "xyz").is_acceptable = false := by
  have h := acceptable_iff_three "xyz"
  have hp : passedChecks "xyz" = 0 := by decide
  rw [hp] at h
  simpa using h

lemma gmv_length (runs : List (Except String ContentGenerationResult)) :
    (generate_multiple_variations runs).length + runs.countP isErrorOutcome =
      runs.length := by
  induction runs with
  | nil => simp [generate_multiple_variations]
  | cons r rest ih =>
    cases r with
    | ok v =>
      simp [generate_multiple_variations, List.countP_cons, isErrorOutcome]
      omega
    | error e =>
      simp [generate_multiple_variations, List.countP_cons, isErrorOutcome]
      omega

/-- C1: for every valid initial state (non-empty company info and topic, a
valid style), a full pipeline run terminates with non-empty
`final_content` or with status `failed`; no run ends with empty
`final_content` and a status other than `failed`. -/
theorem C1_terminal_content_or_failed (d : List String → List String) (o : LLMOracle)
    (company_info topic style : String) (target_audience : Option String)
    (content_length : String)
    (h1 : company_info ≠ "") (h2 : topic ≠ "") (h3 : style ∈ validStyles) :
    (generate_content d o company_info topic style
        target_audience content_length).final_content ≠ "" ∨
    (generate_content d o company_info topic style
        target_audience content_length).status = "failed" := by
  rcases heq : (run_agent_graph d o (initial_agent_state company_info topic style
      target_audience content_length)).result with e | fs
  · right
    unfold generate_content
    rw [heq]
  · left
    unfold generate_content
    rw [heq]
    exact (finalize_ok_spec _ fs heq).1

theorem C1_terminal_content_or_failed_witness :
    "Acme Corp" ≠ "" ∧ "warehouse safety" ≠ "" ∧ "professional" ∈ validStyles ∧
    ((generate_content firstDedup okOracle "Acme Corp" "warehouse safety" "professional"
        none "medium").final_content ≠ "" ∨
     (generate_content firstDedup okOracle "Acme Corp" "warehouse safety" "professional"
        none "medium").status = "failed") :=
  ⟨by decide, by decide, by decide,
   C1_terminal_content_or_failed firstDedup okOracle "Acme Corp" "warehouse safety"
     "professional" none "medium" (by decide) (by decide) (by decide)⟩

/-- C2: a failing research collaborator call is caught at the stage
boundary and converted into a partial update carrying the failure status
and the error message; all later nodes still execute and the run still
reaches a terminal (`completed` or `failed`) status. -/
theorem C2_research_failure_isolated (d : List String → List String) (o : LLMOracle)
    (e : String) (hres : o.research = .error e)
    (company_info topic style : String) (target_audience : Option String)
    (content_length : String) :
    (agent_research_topic o (initial_agent_state company_info topic style
        target_audience content_length)).status = "research_failed" ∧
    (agent_research_topic o (initial_agent_state company_info topic style
        target_audience content_length)).research_notes =
      some ("Research unavailable: " ++ e) ∧
    (agent_research_topic o (initial_agent_state company_info topic style
        target_audience content_length)).error = some e ∧
    (run_agent_graph d o (initial_agent_state company_info topic style
        target_audience content_length)).executed = agent_node_names ∧
    ((generate_content d o company_info topic style
        target_audience content_length).status = "completed" ∨
     (generate_content d o company_info topic style
        target_audience content_length).status = "failed") := by
  refine ⟨by simp [agent_research_topic, hres], by simp [agent_research_topic, hres],
    by simp [agent_research_topic, hres], rfl, ?_⟩
  rcases heq : (run_agent_graph d o (initial_agent_state company_info topic style
      target_audience content_length)).result with e2 | fs
  · right
    unfold generate_content
    rw [heq]
  · left
    unfold generate_content
    rw [heq]
    exact (finalize_ok_spec _ fs heq).2.1

theorem C2_research_failure_isolated_witness :
    errOracle.research = Except.error "boom1" ∧
    (agent_research_topic errOracle (initial_agent_state "Acme Corp" "warehouse safety"
        "professional" none "medium")).status = "research_failed" ∧
    ((generate_content firstDedup errOracle "Acme Corp" "warehouse safety" "professional"
        none "medium").status = "completed" ∨
     (generate_content firstDedup errOracle "Acme Corp" "warehouse safety" "professional"
        none "medium").status = "failed") := by
  have h := C2_research_failure_isolated firstDedup errOracle "boom1" rfl
    "Acme Corp" "warehouse safety" "professional" none "medium"
  exact ⟨rfl, h.1, h.2.2.2.2⟩

/-- C3: the quality gate scores (number of passed checks)/4 and accepts
exactly when the score is at least 0.6, i.e. when at least 3 of the 4
checks pass; a text with a company-reference token, a question mark,
length 150 and a hash character scores 1.0 and is accepted; a text
passing none of the four checks scores 0.0 and is rejected. -/
theorem C3_quality_gate_threshold :
    (∀ content, (perform_quality_check none content).score = (passedChecks content : ℚ) / 4) ∧
    (∀ content, (perform_quality_check none content).is_acceptable = true ↔
      3 ≤ passedChecks content) ∧
    (∀ content,
      (∃ k ∈ (["we", "our", "company", "team"] : List String),
        strContains (pyLower content) k = true) →
      strContains (pyLower content) "?" = true →
      content.length = 150 →
      strContains content "#" = true →
      (perform_quality_check none content).score = 1 ∧
      (perform_quality_check none content).is_acceptable = true) ∧
    (∀ content,
      (∀ k ∈ (["we", "our", "company", "team"] : List String),
        strContains (pyLower content) k = false) →
      (∀ k ∈ (["?", "comment", "share", "thoughts"] : List String),
        strContains (pyLower content) k = false) →
      ¬(100 ≤ content.length ∧ content.length ≤ 2000) →
      strContains content "#" = false →
      (perform_quality_check none content).score = 0 ∧
      (perform_quality_check none content).is_acceptable = false) := by
  refine ⟨fun content => rfl, fun content => acceptable_iff_three content, ?_, ?_⟩
  · intro content hcomp heng hlen hhash
    have c1 : (["we", "our", "company", "team"].any
        fun k => strContains (pyLower content) k) = true := by
      rw [List.any_eq_true]
      obtain ⟨k, hk, hs⟩ := hcomp
      exact ⟨k, hk, hs⟩
    have c2 : (["?", "comment", "share", "thoughts"].any
        fun k => strContains (pyLower content) k) = true := by
      rw [List.any_eq_true]
      exact ⟨"?", by simp, heng⟩
    have hp : passedChecks content = 4 := by
      simp [passedChecks, qualityChecks, c1, c2, hlen, hhash]
    constructor
    · simp [perform_quality_check, hp]
    · rw [acceptable_iff_three, hp]
      omega
  · intro content hcomp heng hlen hhash
    have c1 : (["we", "our", "company", "team"].any
        fun k => strContains (pyLower content) k) = false := by
      rw [List.any_eq_false]
      intro k hk
      simp [hcomp k hk]
    have c2 : (["?", "comment", "share", "thoughts"].any
        fun k => strContains (pyLower content) k) = false := by
      rw [List.any_eq_false]
      intro k hk
      simp [heng k hk]
    have hlen2 : (decide (100 ≤ content.length ∧ content.length ≤ 2000)) = false := by
      simpa using hlen
    have hp : passedChecks content = 0 := by
      simp [passedChecks, qualityChecks, c1, c2, hlen2, hhash]
    constructor
    · simp [perform_quality_check, hp]
    · have h := acceptable_iff_three content
      rw [hp] at h
      simpa using h

set_option maxRecDepth 8000 in
theorem C3_quality_gate_threshold_witness :
    (perform_quality_check none fullChecksText).score = 1 ∧
    (perform_quality_check none fullChecksText).is_acceptable = true ∧
    (perform_quality_check none "xyz").score = 0 ∧
    (perform_quality_check none "xyz").is_acceptable = false := by
  have h3 := C3_quality_gate_threshold.2.2.1 fullChecksText
    ⟨"we", by decide, by decide⟩ (by decide) (by decide) (by decide)
  have h4 := C3_quality_gate_threshold.2.2.2 "xyz"
    (by decide) (by decide) (by decide) (by decide)
  exact ⟨h3.1, h3.2, h4.1, h4.2⟩

/-- C4 counterexample: the claim as written fails on the text with two
identical markers: K = 2 well-formed markers, but after deduplication only
one token remains, so the returned length is 1, not min(2, 5) = 2. -/
theorem C4_counterexample : ¬ ExtractClaimAsWritten := by
  intro h
  have h1 := (h firstDedup firstDedup_isSetList "#a #a").1
  exact absurd h1 (by decide)

/-- C4 amended: extraction returns exactly min(D, 5) tokens where D is the
number of distinct well-formed markers, each returned token being a marker
occurring in the text; the order is the unspecified Python set iteration
order, not necessarily first-occurrence order. -/
theorem C4_extract_hashtags_amended (d : List String → List String) (hd : IsSetList d)
    (content : String) :
    (extract_hashtags d content).length =
      min (firstDedup (findall_hashtags content)).length 5 ∧
    ∀ t ∈ extract_hashtags d content, t ∈ findall_hashtags content := by
  constructor
  · rw [extract_hashtags, List.length_take, setList_length_eq d hd, Nat.min_comm]
  · intro t ht
    exact ((hd _).2 t).mp (List.take_subset _ _ ht)

theorem C4_extract_hashtags_amended_witness :
    IsSetList firstDedup ∧
    extract_hashtags firstDedup "#alpha #beta #alpha" = ["alpha", "beta"] ∧
    (extract_hashtags firstDedup "#alpha #beta #alpha").length =
      min (firstDedup (findall_hashtags "#alpha #beta #alpha")).length 5 ∧
    ∀ t ∈ extract_hashtags firstDedup "#alpha #beta #alpha",
      t ∈ findall_hashtags "#alpha #beta #alpha" :=
  ⟨firstDedup_isSetList, by decide,
   (C4_extract_hashtags_amended firstDedup firstDedup_isSetList _).1,
   (C4_extract_hashtags_amended firstDedup firstDedup_isSetList _).2⟩

/-- C5: whenever a run's terminal status is not `failed`, its hashtags
list is non-empty: when no stage produced hashtags, finalize substitutes
the deterministic topic-derived fallback, which has at least three entries
(fixed base tags plus capitalised topic keywords). -/
theorem C5_terminal_hashtags_nonempty (d : List String → List String) (o : LLMOracle)
    (company_info topic style : String) (target_audience : Option String)
    (content_length : String)
    (h : (generate_content d o company_info topic style
        target_audience content_length).status ≠ "failed") :
    (generate_content d o company_info topic style
        target_audience content_length).hashtags ≠ [] ∧
    3 ≤ (generate_fallback_hashtags topic).length ∧
    (∀ s : AgentState, s.hashtags = [] → ∀ s2, agent_finalize_content s = .ok s2 →
      s2.hashtags = generate_fallback_hashtags s.topic) := by
  refine ⟨?_, fallback_hashtags_length topic, ?_⟩
  · rcases heq : (run_agent_graph d o (initial_agent_state company_info topic style
        target_audience content_length)).result with e | fs
    · exfalso
      apply h
      unfold generate_content
      rw [heq]
    · unfold generate_content
      rw [heq]
      exact (finalize_ok_spec _ fs heq).2.2
  · intro s hs s2 hfin
    unfold agent_finalize_content at hfin
    by_cases hfc : (if s.final_content ≠ "" then s.final_content else s.draft_content) = ""
    · rw [if_pos hfc] at hfin
      exact absurd hfin (by simp)
    · rw [if_neg hfc] at hfin
      simp only [Except.ok.injEq] at hfin
      subst hfin
      simp [hs]

set_option maxRecDepth 8000 in
theorem C5_terminal_hashtags_nonempty_witness :
    (generate_content firstDedup okOracle "Acme Corp" "warehouse safety" "professional"
        none "medium").status ≠ "failed" ∧
    (generate_content firstDedup okOracle "Acme Corp" "warehouse safety" "professional"
        none "medium").hashtags ≠ [] := by
  have hs : (generate_content firstDedup okOracle "Acme Corp" "warehouse safety"
      "professional" none "medium").status ≠ "failed" := by decide
  exact ⟨hs, (C5_terminal_hashtags_nonempty firstDedup okOracle "Acme Corp"
    "warehouse safety" "professional" none "medium" hs).1⟩

/-- C6: whenever the review rewrite fails the quality gate, or the review
collaborator call fails, the returned update sets final_content to the
original draft content with an appended disclaimer marker string. -/
theorem C6_review_fallback_disclaimer (o : LLMOracle) (qcCrash : Option String)
    (s : WState) (c e : String) :
    (o.review = .ok c → (perform_quality_check qcCrash c).is_acceptable = false →
      (wf_review_content o qcCrash s).final_content =
        s.draft_content ++ "\n\n[Content reviewed for accuracy]") ∧
    (o.review = .error e →
      (wf_review_content o qcCrash s).final_content =
        s.draft_content ++ "\n\n[Content review incomplete]") := by
  constructor
  · intro hok hgate
    simp [wf_review_content, hok, hgate]
  · intro herr
    simp [wf_review_content, herr]

theorem C6_review_fallback_disclaimer_witness :
    gateRejectOracle.review = Except.ok "xyz" ∧
    (perform_quality_check none "xyz").is_acceptable = false ∧
    (wf_review_content gateRejectOracle none
        (initial_wstate "Acme Corp" "warehouse safety" "professional" "general")).final_content =
      (initial_wstate "Acme Corp" "warehouse safety" "professional"
        "general").draft_content ++ "\n\n[Content reviewed for accuracy]" ∧
    errOracle.review = Except.error "boom4" ∧
    (wf_review_content errOracle none
        (initial_wstate "Acme Corp" "warehouse safety" "professional" "general")).final_content =
      (initial_wstate "Acme Corp" "warehouse safety" "professional"
        "general").draft_content ++ "\n\n[Content review incomplete]" :=
  ⟨rfl, gate_rejects_xyz,
   (C6_review_fallback_disclaimer gateRejectOracle none
     (initial_wstate "Acme Corp" "warehouse safety" "professional" "general")
     "xyz" "boom4").1 rfl gate_rejects_xyz,
   rfl,
   (C6_review_fallback_disclaimer errOracle none
     (initial_wstate "Acme Corp" "warehouse safety" "professional" "general")
     "xyz" "boom4").2 rfl⟩

/-- C7: variation generation is a total function of the run outcomes (it
never raises), returning exactly the results of the non-raising runs in
order; in particular three runs with exactly one raising run yield exactly
two results. -/
theorem C7_variations_drop_failures :
    (∀ runs, generate_multiple_variations runs =
      runs.filterMap (fun r => match r with | .ok v => some v | .error _ => none)) ∧
    (∀ runs, (generate_multiple_variations runs).length +
      runs.countP isErrorOutcome = runs.length) ∧
    (∀ runs, runs.length = 3 → runs.countP isErrorOutcome = 1 →
      (generate_multiple_variations runs).length = 2) := by
  refine ⟨?_, gmv_length, ?_⟩
  · intro runs
    induction runs with
    | nil => simp [generate_multiple_variations]
    | cons r rest ih =>
      cases r with
      | ok v => simp [generate_multiple_variations, ih]
      | error e => simp [generate_multiple_variations, ih]
  · intro runs h3 h1
    have h := gmv_length runs
    omega

theorem C7_variations_drop_failures_witness :
    ([Except.ok demoResult, Except.error "boom", Except.ok demoResult] :
      List (Except String ContentGenerationResult)).length = 3 ∧
    ([Except.ok demoResult, Except.error "boom", Except.ok demoResult] :
      List (Except String ContentGenerationResult)).countP isErrorOutcome = 1 ∧
    (generate_multiple_variations
      [Except.ok demoResult, Except.error "boom", Except.ok demoResult]).length = 2 := by
  refine ⟨rfl, by simp [isErrorOutcome], ?_⟩
  exact C7_variations_drop_failures.2.2 _ rfl (by simp [isErrorOutcome])

/-- C8: if the quality scorer itself raises internally, the gate returns
an accepting verdict (fail open) instead of rejecting or propagating. -/
theorem C8_quality_check_fail_open (e content : String) :
    (perform_quality_check (some e) content).is_acceptable = true := rfl

/-- C9: in a run where every collaborator call fails, the draft stage
leaves its non-empty failure placeholder, the review stage appends its
disclaimer to it, and finalize still reports status completed with exactly
that text as final content. -/
theorem C9_all_failures_still_completed (d : List String → List String)
    (o : LLMOracle) (qcCrash : Option String) (e1 e2 e3 e4 e5 : String)
    (h1 : o.research = .error e1) (h2 : o.draft = .error e2)
    (h3 : o.image = .error e3) (h4 : o.review = .error e4)
    (h5 : o.hashtag = .error e5)
    (company_info topic style industry : String)
    (hne : ("Content generation challenged: " ++ e2 : String) ≠ "") :
    (run_workflow_nodes d o qcCrash
        (initial_wstate company_info topic style industry)).status = "completed" ∧
    (run_workflow_nodes d o qcCrash
        (initial_wstate company_info topic style industry)).final_content =
      ("Content generation challenged: " ++ e2) ++ "\n\n[Content review incomplete]" := by
  have hne2 : (("Content generation challenged: " ++ e2) ++
      "\n\n[Content review incomplete]" : String) ≠ "" :=
    append_ne_empty_of_left _ _ hne
  unfold run_workflow_nodes
  simp [wf_research_topic, h1, wf_generate_draft, h2, wf_generate_image_prompt, h3,
    wf_review_content, h4, wf_finalize_content, initial_wstate, hne2]

theorem C9_all_failures_still_completed_witness :
    errOracle.draft = Except.error "boom2" ∧
    (run_workflow_nodes firstDedup errOracle none
        (initial_wstate "Acme Corp" "warehouse safety" "professional" "general")).status =
      "completed" ∧
    (run_workflow_nodes firstDedup errOracle none
        (initial_wstate "Acme Corp" "warehouse safety" "professional" "general")).final_content =
      ("Content generation challenged: " ++ "boom2") ++ "\n\n[Content review incomplete]" := by
  have h := C9_all_failures_still_completed firstDedup errOracle none
    "boom1" "boom2" "boom3" "boom4" "boom5" rfl rfl rfl rfl rfl
    "Acme Corp" "warehouse safety" "professional" "general" (by decide)
  exact ⟨rfl, h.1, h.2⟩

/-- C10: the task-creation loop leaves the shared temperature unchanged
(each iteration restores the value it read), creates n tasks, and because
the temperature is restored synchronously before any task is awaited,
every variation run executes with the original temperature. -/
theorem C10_temperature_restored (t0 : ℚ) (n : Nat) :
    (run_variation_loop t0 n).temperature = t0 ∧
    (run_variation_loop t0 n).created_tasks = n ∧
    ∀ t ∈ variation_execution_temps t0 n, t = t0 := by
  have key : ∀ (l : List Nat) (s : VariationLoopState),
      (l.foldl variation_loop_iter s).temperature = s.temperature ∧
      (l.foldl variation_loop_iter s).created_tasks = s.created_tasks + l.length := by
    intro l
    induction l with
    | nil => intro s; simp
    | cons a l ih =>
      intro s
      have h := ih (variation_loop_iter s a)
      constructor
      · rw [List.foldl_cons, h.1]
        rfl
      · rw [List.foldl_cons, h.2]
        simp only [variation_loop_iter, List.length_cons]
        omega
  refine ⟨?_, ?_, ?_⟩
  · exact (key (List.range n) { temperature := t0, created_tasks := 0 }).1
  · have h := (key (List.range n) { temperature := t0, created_tasks := 0 }).2
    simpa [run_variation_loop] using h
  · intro t ht
    rw [variation_execution_temps] at ht
    rw [List.eq_of_mem_replicate ht]
    exact (key (List.range n) { temperature := t0, created_tasks := 0 }).1

end ContentPipeline
